import Mathlib

/-!
Verification development for the admin-dashboard front-end script
(`static/js/admin/dashboard.js`): a shallow embedding of its data model and
operations (JSON fetch with error handling, summary-counter updates, stats
query derivation, chart rendering with slot lifecycle, modal expansion),
together with theorems about them.
-/

set_option maxHeartbeats 1000000

/-- JSON values, as produced by `JSON.parse` on a response body.  JSON numbers
are modelled as integers: every numeric field in the dashboard's payloads is a
count.  Object fields keep their textual order. -/
inductive Json where
  | null : Json
  | bool (b : Bool) : Json
  | num (n : Int) : Json
  | str (s : String) : Json
  | arr (elems : List Json) : Json
  | obj (fields : List (String × Json)) : Json

/-- A JavaScript value as seen by the dashboard code: either `undefined` or a
JSON value (the script only ever handles parsed JSON and `undefined`). -/
inductive JsVal where
  | undefined : JsVal
  | val (j : Json) : JsVal

/-- First-match association lookup, the semantics of reading a property from a
parsed-JSON object. -/
def findField (k : String) : List (String × Json) → Option Json
  | [] => none
  | (k', v) :: fs => if k' = k then some v else findField k fs

/-- JavaScript member access `v.k`.  Accessing a property of `undefined` or
`null` throws a `TypeError` (modelled as `.error`); accessing a missing
property of an object yields `undefined`; property access on other primitives
yields `undefined` (no dashboard payload puts the accessed key on a
primitive's prototype). -/
def jsProp : JsVal → String → Except String JsVal
  | .undefined, _ => .error "TypeError"
  | .val .null, _ => .error "TypeError"
  | .val (.obj fs), k =>
      match findField k fs with
      | some v => .ok (.val v)
      | none => .ok .undefined
  | .val _, _ => .ok .undefined

/-- Member access `x.k` for an element `x` of a parsed-JSON array, as used in
the render callbacks (`x => x.name` and similar).  The payloads the claims
exercise have object entries; a `null` entry would throw a `TypeError` in the
browser, which no claim exercises, so here it yields `undefined` like other
non-object values. -/
def jsPropOf (x : Json) (k : String) : JsVal :=
  match x with
  | .obj fs =>
      match findField k fs with
      | some v => .val v
      | none => .undefined
  | _ => .undefined

/-- An HTTP response as the script observes it: the status code, the
`content-type` header (already defaulted to the empty string when the header
is absent, mirroring `response.headers.get('content-type') || ''`), the body
text, and the result of `JSON.parse` on the body (`none` when the body is not
valid JSON, in which case `response.json()` rejects). -/
structure HttpResponse where
  status : Nat
  contentType : String
  bodyText : List Char
  bodyJson : Option Json

/-- `response.ok`: status in the inclusive range 200–299. -/
def respOk (r : HttpResponse) : Bool :=
  decide (200 ≤ r.status) && decide (r.status ≤ 299)

/-- `haystack.includes(needle)` on strings, modelled on character lists. -/
def strIncludes (haystack needle : List Char) : Bool :=
  decide (needle <:+: haystack)

/-- The failure outcomes of the script's JSON retrieval: the explicit
"unexpected response" error thrown by `fetchJSON` (carrying the status code
and a body excerpt), a network-level rejection of `fetch` itself, and a
rejection of `response.json()`/`r.json()` on an unparseable body. -/
inductive FetchError where
  | unexpected (status : Nat) (excerpt : List Char) : FetchError
  | network : FetchError
  | parseError : FetchError
deriving DecidableEq, Repr

/-- `fetchJSON`'s handling of a received response: if the status is not OK or
the declared content type does not include `application/json`, throw an error
carrying the status and the body text truncated to its first 200 characters
(`text.substring(0, 200)`); otherwise resolve `response.json()`. -/
def fetchJSON (r : HttpResponse) : Except FetchError Json :=
  if !respOk r || !strIncludes r.contentType.toList "application/json".toList then
    .error (.unexpected r.status (r.bodyText.take 200))
  else
    match r.bodyJson with
    | some j => .ok j
    | none => .error .parseError

/-- A whole `fetchJSON(url)` call including the network step: `none` models a
rejected `fetch` (the request never produced a response). -/
def fetchJSONNet (netResult : Option HttpResponse) : Except FetchError Json :=
  match netResult with
  | none => .error .network
  | some r => fetchJSON r

/-- Whether a response has an OK status and a JSON content type — the success
condition named by the claim about `fetchJSON`. -/
def okJsonResponse (r : HttpResponse) : Bool :=
  respOk r && strIncludes r.contentType.toList "application/json".toList

/-- `true` when an `Except` result is a success — `promise resolved` in the
script's terms. -/
def fetchSucceeded (e : Except FetchError Json) : Bool :=
  match e with
  | .ok _ => true
  | .error _ => false

/-- `Number.prototype.toLocaleString`.  The grouping separators it inserts are
locale-dependent and no claim depends on the exact digit string, so the
numeral is rendered without grouping. -/
def toLocaleString (n : Int) : String :=
  toString n

/-- JavaScript truthiness of a value, as used by `||` defaults and the
`if (chart)` / `if (monthEl)` guards. -/
def jsTruthy : JsVal → Bool
  | .undefined => false
  | .val .null => false
  | .val (.bool b) => b
  | .val (.num n) => decide (n ≠ 0)
  | .val (.str s) => decide (s ≠ "")
  | .val (.arr _) => true
  | .val (.obj _) => true

/-- `v || dflt`: the default replaces any falsy value. -/
def jsOrElse (v : JsVal) (dflt : Json) : Json :=
  match v with
  | .val j => if jsTruthy (.val j) then j else dflt
  | .undefined => dflt

/-- The text `updateElement` assigns: numbers are formatted with
`toLocaleString`, any other value is assigned to `textContent` directly
(strings stay themselves; the remaining cases follow the DOM's string
coercion of the assigned value and are not exercised by any claim). -/
def displayString : JsVal → String
  | .val (.num n) => toLocaleString n
  | .val (.str s) => s
  | .val (.bool b) => cond b "true" "false"
  | .val .null => ""
  | .val (.arr _) => ""
  | .val (.obj _) => ""
  | .undefined => ""

/-- The four summary-counter display elements of the dashboard page
(`books-count`, `users-count`, `pending-requests`, `overdue-loans`), each
holding its current text content. -/
structure Counters where
  books : String
  users : String
  pending : String
  overdue : String
deriving DecidableEq, Repr

/-- `updateElement(id, value)` restricted to the counter elements: writes the
text into the matching element; any other id is a no-op on the counters (the
admin template defines all four counter elements, so the `if (el)` guard in
`updateElement` passes for these four ids). -/
def updateCounter (c : Counters) (id : String) (text : String) : Counters :=
  if id = "books-count" then { c with books := text }
  else if id = "users-count" then { c with users := text }
  else if id = "pending-requests" then { c with pending := text }
  else if id = "overdue-loans" then { c with overdue := text }
  else c

/-- The `.catch` branch of `loadDashboardStats`: every counter id is reset to
the dash placeholder. -/
def setAllDash (c : Counters) : Counters :=
  ["books-count", "users-count", "pending-requests", "overdue-loans"].foldl
    (fun acc id => updateCounter acc id "-") c

/-- The `.then` branch of `loadDashboardStats`: the four `updateElement`
calls in order, each evaluating its property chain first
(`data.basic.total_books`, `data.basic.total_users`, `data.requests.pending`,
`data.loans.overdue`).  A `TypeError` thrown mid-way aborts the branch; the
error value carries the counters as updated so far, since the preceding
`updateElement` calls have already taken effect when the throw happens. -/
def statsThen (data : Json) (c0 : Counters) : Except Counters Counters :=
  match jsProp (.val data) "basic" with
  | .error _ => .error c0
  | .ok basic =>
  match jsProp basic "total_books" with
  | .error _ => .error c0
  | .ok v1 =>
  let c1 := updateCounter c0 "books-count" (displayString v1)
  match jsProp (.val data) "basic" with
  | .error _ => .error c1
  | .ok basic2 =>
  match jsProp basic2 "total_users" with
  | .error _ => .error c1
  | .ok v2 =>
  let c2 := updateCounter c1 "users-count" (displayString v2)
  match jsProp (.val data) "requests" with
  | .error _ => .error c2
  | .ok reqs =>
  match jsProp reqs "pending" with
  | .error _ => .error c2
  | .ok v3 =>
  let c3 := updateCounter c2 "pending-requests" (displayString v3)
  match jsProp (.val data) "loans" with
  | .error _ => .error c3
  | .ok loans =>
  match jsProp loans "overdue" with
  | .error _ => .error c3
  | .ok v4 =>
  .ok (updateCounter c3 "overdue-loans" (displayString v4))

/-- `loadDashboardStats`: fetch the summary payload with `fetchJSON`, run the
success branch, and on any rejection (network, unexpected response, parse
failure, or a `TypeError` inside the `.then`) run the catch handler, which
logs the error and dashes out all four counters.  Returns the final counter
state and whether the catch handler ran (the error was logged). -/
def loadDashboardStats (netResult : Option HttpResponse) (c : Counters) :
    Counters × Bool :=
  match fetchJSONNet netResult with
  | .error _ => (setAllDash c, true)
  | .ok data =>
      match statsThen data c with
      | .ok c' => (c', false)
      | .error cPartial => (setAllDash cPartial, true)

/-- The statistics-controls query derivation inside `loadBookStats`.  Each
control element is `none` when absent from the DOM and otherwise carries its
current `value`.  When the period or year control is missing the function
returns early without issuing a request (`none`); otherwise it builds the
`URLSearchParams` entry list in insertion order: `period`, `year`, and —
only when the period is not `year` — `month`, whose value falls back to the
hard-coded `1` when the month control is absent (`monthEl ? monthEl.value
: 1`, coerced to the string `1` by `URLSearchParams`). -/
def loadBookStatsQuery (periodEl yearEl monthEl : Option String) :
    Option (List (String × String)) :=
  match periodEl, yearEl with
  | some period, some y =>
      let m : String := match monthEl with | some mv => mv | none => "1"
      let params := [("period", period), ("year", y)]
      let params := if period ≠ "year" then params ++ [("month", m)] else params
      some params
  | _, _ => none

/-- `params.toString()`: the serialized query string.  URL percent-encoding
is the identity on the characters these parameters contain. -/
def serializeParams (ps : List (String × String)) : String :=
  String.intercalate "&" (ps.map (fun p => p.1 ++ "=" ++ p.2))

/-- Member access `v.k` on a value already known to be defined, used for the
`ts.labels` / `ts.values` reads (`ts` is either the payload field or the
literal default object, never `undefined`). -/
def jsPropV (v : JsVal) (k : String) : JsVal :=
  match v with
  | .val j => jsPropOf j k
  | .undefined => .undefined

/-- Coerce a value to the element list of an array, for dataset fields.  A
non-array value yields the empty list: the falsy cases mirror the `|| []`
defaults in the render functions.  A truthy non-array payload value throws at
`.slice`/`.map` in the browser; that failure mode is modelled by the
fallible render steps (`renderBooksPerCategoryE` and friends) — this total
coercion is used only where an array is hypothesised (the truncation
theorems) or where no throw can occur (the `ts.labels` / `ts.values` reads,
whose non-array case only reaches the chart library). -/
def jsArrElems : JsVal → List Json
  | .val (.arr xs) => xs
  | _ => []

/-- The fixed ten-colour base palette of `buildBarColors`. -/
def basePalette : List String :=
  ["#007cba", "#00a8e8", "#17a2b8", "#28a745", "#20c997",
   "#6f42c1", "#6610f2", "#e83e8c", "#fd7e14", "#ffc107"]

/-- `buildBarColors(n)`: `n` colours obtained by cycling the base palette by
index modulo its length. -/
def buildBarColors (n : Nat) : List String :=
  (List.range n).map (fun i => basePalette.getD (i % basePalette.length) "")

/-- The type / labels / values / colours a render function hands to the chart
library for one chart.  Labels and values keep the raw JavaScript values the
callbacks produce. -/
structure ChartSpec where
  ctype : String
  labels : List JsVal
  values : List JsVal
  colors : List String

/-- The dataset `renderBooksPerCategoryChart` builds:
`(data.category_book_counts || []).slice(0, 20)`, labels from `.name`,
values from `.total_books`, colours for the truncated length, doughnut
type. -/
def renderBooksPerCategorySpec (data : Json) : ChartSpec :=
  let bpc := (jsArrElems (jsPropOf data "category_book_counts")).take 20
  { ctype := "doughnut",
    labels := bpc.map (fun x => jsPropOf x "name"),
    values := bpc.map (fun x => jsPropOf x "total_books"),
    colors := buildBarColors bpc.length }

/-- The dataset `renderLoansOverTimeChart` builds:
`data.time_series || { labels: [], values: [] }`, whose `labels` and
`values` arrays are passed to a line chart (their elements listed here). -/
def renderLoansOverTimeSpec (data : Json) : ChartSpec :=
  let ts : JsVal := .val (jsOrElse (jsPropOf data "time_series")
    (.obj [("labels", .arr []), ("values", .arr [])]))
  { ctype := "line",
    labels := (jsArrElems (jsPropV ts "labels")).map JsVal.val,
    values := (jsArrElems (jsPropV ts "values")).map JsVal.val,
    colors := [] }

/-- The dataset `renderLoanStatusChart` builds:
`data.status_distribution || []` (no truncation), labels from `.status`,
values from `.total`, doughnut type. -/
def renderLoanStatusSpec (data : Json) : ChartSpec :=
  let sd := jsArrElems (jsPropOf data "status_distribution")
  { ctype := "doughnut",
    labels := sd.map (fun x => jsPropOf x "status"),
    values := sd.map (fun x => jsPropOf x "total"),
    colors := buildBarColors sd.length }

/-- The dataset `renderLanguageChart` builds:
`(data.language_distribution || []).slice(0, 12)`, labels from `.language`,
values from `.total`, colours for the truncated length, bar type. -/
def renderLanguageSpec (data : Json) : ChartSpec :=
  let ld := (jsArrElems (jsPropOf data "language_distribution")).take 12
  { ctype := "bar",
    labels := ld.map (fun x => jsPropOf x "language"),
    values := ld.map (fun x => jsPropOf x "total"),
    colors := buildBarColors ld.length }

/-- Whether a parsed-JSON value is `null` (member access on it throws). -/
def jsonIsNull : Json → Bool
  | .null => true
  | _ => false

/-- `xs.map(x => x.k)` over the elements of a parsed-JSON array: the member
access is evaluated left to right and throws a `TypeError` at the first
`null` element (a parsed-JSON array cannot contain `undefined`). -/
def mapPropE (xs : List Json) (k : String) : Except String (List JsVal) :=
  match xs with
  | [] => .ok []
  | x :: rest =>
      match jsProp (.val x) k with
      | .error e => .error e
      | .ok v =>
          match mapPropE rest k with
          | .error e => .error e
          | .ok vs => .ok (v :: vs)

/-- `renderBooksPerCategoryChart` as `renderCharts` runs it, with its
throwing positions: the `data.category_book_counts` access (throws when the
payload is `null`), the `|| []` default, `.slice(0, 20)` — a truthy
non-array value throws here, except a string, which survives `.slice` and
throws at the subsequent `.map` — and the two element maps, which throw on a
`null` entry among the first 20.  All of this runs before the canvas check,
destroy and construction, so a throw leaves the slot's previous chart in
place; on success the constructed dataset is the one
`renderBooksPerCategorySpec` describes. -/
def renderBooksPerCategoryE (data : Json) : Except String ChartSpec :=
  match jsProp (.val data) "category_book_counts" with
  | .error e => .error e
  | .ok v =>
      match jsOrElse v (.arr []) with
      | .arr xs =>
          let bpc := xs.take 20
          match mapPropE bpc "name" with
          | .error e => .error e
          | .ok labels =>
              match mapPropE bpc "total_books" with
              | .error e => .error e
              | .ok values =>
                  .ok { ctype := "doughnut", labels := labels,
                        values := values,
                        colors := buildBarColors bpc.length }
      | _ => .error "TypeError"

/-- `renderLoansOverTimeChart` as `renderCharts` runs it: its only throwing
position is the `data.time_series` access (throws when the payload is
`null`); the `|| {…}` default and the `ts.labels` / `ts.values` reads are
total (property access on a truthy value never throws), so on any non-null
payload it succeeds with the dataset `renderLoansOverTimeSpec`
describes. -/
def renderLoansOverTimeE (data : Json) : Except String ChartSpec :=
  match jsProp (.val data) "time_series" with
  | .error e => .error e
  | .ok _ => .ok (renderLoansOverTimeSpec data)

/-- `renderLoanStatusChart` as `renderCharts` runs it, with its throwing
positions: the `data.status_distribution` access (null payload), a truthy
non-array value throwing at `sd.map`, and a `null` entry anywhere in the
array throwing inside the map (no truncation here).  All run before the
canvas check, so a throw leaves the slot's previous chart in place. -/
def renderLoanStatusE (data : Json) : Except String ChartSpec :=
  match jsProp (.val data) "status_distribution" with
  | .error e => .error e
  | .ok v =>
      match jsOrElse v (.arr []) with
      | .arr sd =>
          match mapPropE sd "status" with
          | .error e => .error e
          | .ok labels =>
              match mapPropE sd "total" with
              | .error e => .error e
              | .ok values =>
                  .ok { ctype := "doughnut", labels := labels,
                        values := values,
                        colors := buildBarColors sd.length }
      | _ => .error "TypeError"

/-- `renderLanguageChart` as `renderCharts` runs it, with the same throwing
positions as the category render (`.slice(0, 12)` and the element maps over
the first 12 entries). -/
def renderLanguageE (data : Json) : Except String ChartSpec :=
  match jsProp (.val data) "language_distribution" with
  | .error e => .error e
  | .ok v =>
      match jsOrElse v (.arr []) with
      | .arr xs =>
          let ld := xs.take 12
          match mapPropE ld "language" with
          | .error e => .error e
          | .ok labels =>
              match mapPropE ld "total" with
              | .error e => .error e
              | .ok values =>
                  .ok { ctype := "bar", labels := labels,
                        values := values,
                        colors := buildBarColors ld.length }
      | _ => .error "TypeError"

/-- The four named chart slots of the dashboard. -/
inductive Slot where
  | booksPerCategory
  | loansOverTime
  | loanStatus
  | language
deriving DecidableEq, Repr

/-- One chart-library instance created by a render function: its allocation
id, the slot whose canvas it was created on, and whether `destroy()` has been
called on it.  An instance is *live* while not destroyed. -/
structure ChartRec where
  id : Nat
  slot : Slot
  destroyed : Bool
deriving DecidableEq, Repr

/-- The chart-lifecycle state of the page: every instance ever constructed
(the ledger the liveness claims count over), the module-level slot variables
(`booksPerCategoryChart` …, `none` = `null`), the number of click listeners
currently attached to each slot's canvas, which canvases are present in the
DOM, and the next allocation id. -/
structure DashCharts where
  charts : List ChartRec
  slotRef : Slot → Option Nat
  listeners : Slot → Nat
  canvasPresent : Slot → Bool
  nextId : Nat

/-- `instance.destroy()` on instance `i`: mark it destroyed in the ledger. -/
def destroyChartRec (i : Nat) (cs : List ChartRec) : List ChartRec :=
  cs.map (fun c => if c.id = i then { c with destroyed := true } else c)

/-- One render call for slot `s` (the shared shape of the four
`render*Chart` functions): if the slot's canvas is absent, return before
touching anything; otherwise destroy the instance currently referenced by
the slot variable (if any), construct a new instance, store it in the slot
variable, and attach one more click listener to the canvas
(`ctx.addEventListener('click', …)` — a fresh closure each call, never
removed). -/
def renderSlot (s : Slot) (st : DashCharts) : DashCharts :=
  if st.canvasPresent s then
    let cs := match st.slotRef s with
      | some i => destroyChartRec i st.charts
      | none => st.charts
    { charts := cs ++ [⟨st.nextId, s, false⟩],
      slotRef := fun s' => if s' = s then some st.nextId else st.slotRef s',
      listeners := fun s' => if s' = s then st.listeners s' + 1 else st.listeners s',
      canvasPresent := st.canvasPresent,
      nextId := st.nextId + 1 }
  else st

/-- Run a sequence of render calls left to right. -/
def runRenders (ops : List Slot) (st : DashCharts) : DashCharts :=
  ops.foldl (fun acc s => renderSlot s acc) st

/-- The page's initial chart state: no instance ever constructed, all slot
variables `null`, no listeners, all four canvases present (the admin
template defines all four). -/
def initCharts : DashCharts :=
  { charts := [], slotRef := fun _ => none, listeners := fun _ => 0,
    canvasPresent := fun _ => true, nextId := 0 }

/-- Whether instance `i` is live (constructed and not destroyed) in a
state. -/
def chartLive (s : Slot) (c : ChartRec) : Bool :=
  decide (c.slot = s) && !c.destroyed

/-- The number of live chart-library instances occupying slot `s`. -/
def liveCount (s : Slot) (st : DashCharts) : Nat :=
  (st.charts.filter (chartLive s)).length

/-- One chart-library instance created on the shared modal canvas: allocation
id and whether `destroy()` has been called on it. -/
structure ModalChartRec where
  id : Nat
  destroyed : Bool
deriving DecidableEq, Repr

/-- The modal-expansion state: whether the modal DOM shell has been built
(`modal !== null`), overlay visibility, the `modalChartInstance` variable,
the ledger of every modal chart instance ever constructed, and the next
allocation id. -/
structure ModalSys where
  shellBuilt : Bool
  visible : Bool
  current : Option Nat
  modalCharts : List ModalChartRec
  nextId : Nat

/-- `destroy()` on modal instance `i`: mark it destroyed in the ledger. -/
def destroyModalRec (i : Nat) (cs : List ModalChartRec) : List ModalChartRec :=
  cs.map (fun c => if c.id = i then { c with destroyed := true } else c)

/-- `ensureModal()`: a no-op when the shell already exists, otherwise build
the modal DOM subtree and wire its handlers (the handlers themselves are the
close / reset-zoom transitions modelled below). -/
def ensureModal (st : ModalSys) : ModalSys :=
  if st.shellBuilt then st else { st with shellBuilt := true }

/-- The chart-lifecycle effect of `openModalForChart`: ensure the shell,
destroy any previously open modal chart instance, construct the new
instance, store it in `modalChartInstance`, and show the overlay.  (The
data/option cloning the function also performs is modelled separately by
`openModalClone`.) -/
def openModalLifecycle (st : ModalSys) : ModalSys :=
  let st1 := ensureModal st
  let cs := match st1.current with
    | some i => destroyModalRec i st1.modalCharts
    | none => st1.modalCharts
  { shellBuilt := st1.shellBuilt,
    visible := true,
    current := some st1.nextId,
    modalCharts := cs ++ [⟨st1.nextId, false⟩],
    nextId := st1.nextId + 1 }

/-- `closeModal`: hide the overlay, destroy the modal chart instance if one
is live, and null the `modalChartInstance` variable.  The modal DOM shell is
left in place for reuse. -/
def closeModalLifecycle (st : ModalSys) : ModalSys :=
  let cs := match st.current with
    | some i => destroyModalRec i st.modalCharts
    | none => st.modalCharts
  { st with visible := false, modalCharts := cs, current := none }

/-- The modal's user-visible transitions: an expand click on a chart slot and
a close action (close button or backdrop click, which run the same
`closeModal`). -/
inductive ModalOp where
  | expandClick
  | closeClick
deriving DecidableEq, Repr

/-- Apply one modal transition. -/
def modalStep (st : ModalSys) : ModalOp → ModalSys
  | .expandClick => openModalLifecycle st
  | .closeClick => closeModalLifecycle st

/-- Run a sequence of modal transitions left to right. -/
def runModal (ops : List ModalOp) (st : ModalSys) : ModalSys :=
  ops.foldl modalStep st

/-- The page's initial modal state: shell not yet built, hidden, no instance
ever constructed. -/
def initModal : ModalSys :=
  { shellBuilt := false, visible := false, current := none,
    modalCharts := [], nextId := 0 }

/-- The number of live (constructed, not destroyed) modal chart instances. -/
def modalLiveCount (st : ModalSys) : Nat :=
  (st.modalCharts.filter (fun c => !c.destroyed)).length

mutual

/-- `JSON.parse(JSON.stringify(x))` on a JSON value: a structural deep copy
rebuilding every node (every value the dashboard's charts store in `data`
and `options` is JSON-serializable, so nothing is dropped by the
round-trip). -/
def jsonDeepCopy : Json → Json
  | .null => .null
  | .bool b => .bool b
  | .num n => .num n
  | .str s => .str s
  | .arr xs => .arr (jsonDeepCopyList xs)
  | .obj fs => .obj (jsonDeepCopyFields fs)

/-- Deep copy of the elements of a JSON array. -/
def jsonDeepCopyList : List Json → List Json
  | [] => []
  | x :: xs => jsonDeepCopy x :: jsonDeepCopyList xs

/-- Deep copy of the fields of a JSON object. -/
def jsonDeepCopyFields : List (String × Json) → List (String × Json)
  | [] => []
  | f :: fs => (f.1, jsonDeepCopy f.2) :: jsonDeepCopyFields fs

end

/-- Overwrite (or add) field `k` of an object's field list. -/
def setField (fs : List (String × Json)) (k : String) (v : Json) :
    List (String × Json) :=
  match fs with
  | [] => [(k, v)]
  | (k', v') :: rest =>
      if k' = k then (k, v) :: rest else (k', v') :: setField rest k v

/-- Property assignment `o.k = v` on a JSON object value; the dashboard only
ever assigns into objects, so other values are returned unchanged. -/
def jsonObjSet (j : Json) (k : String) (v : Json) : Json :=
  match j with
  | .obj fs => .obj (setField fs k v)
  | other => other

/-- The zoom/pan options object `openModalForChart` installs on the cloned
options (wheel, pinch and drag zoom on both axes; pan gated behind the shift
key). -/
def zoomOptionsJson : Json :=
  .obj [("zoom", .obj [("wheel", .obj [("enabled", .bool true)]),
                       ("pinch", .obj [("enabled", .bool true)]),
                       ("drag", .obj [("enabled", .bool true)]),
                       ("mode", .str "xy")]),
        ("pan", .obj [("enabled", .bool true),
                      ("mode", .str "xy"),
                      ("modifierKey", .str "shift")])]

/-- The option mutations `openModalForChart` applies to the cloned options:
default `plugins` to an empty object, default `plugins.legend` to
top-position, install the zoom/pan options, and force
`maintainAspectRatio: false`. -/
def mergeModalOptions (opts : Json) : Json :=
  let plugins0 := jsOrElse (jsPropOf opts "plugins") (.obj [])
  let plugins1 := jsonObjSet plugins0 "legend"
    (jsOrElse (jsPropOf plugins0 "legend") (.obj [("position", .str "top")]))
  let plugins2 := jsonObjSet plugins1 "zoom" zoomOptionsJson
  jsonObjSet (jsonObjSet opts "plugins" plugins2) "maintainAspectRatio" (.bool false)

/-- The mutable object heap: one cell per live JavaScript object graph the
model tracks (a chart's `config.data` or `config.options`).  Cell addresses
are list indices; distinct addresses are distinct objects, so writing one
cell never changes another. -/
structure Heap where
  cells : List Json

/-- Read the object graph at address `a`. -/
def readCell (h : Heap) (a : Nat) : Json :=
  h.cells.getD a .null

/-- Mutate the object graph at address `a` (e.g. the chart library or a zoom
interaction writing into a chart's data). -/
def writeCell (h : Heap) (a : Nat) (v : Json) : Heap :=
  ⟨h.cells.set a v⟩

/-- Allocate a fresh object holding `v` (what `JSON.parse` does with its
result): returns the grown heap and the fresh address. -/
def allocCell (h : Heap) (v : Json) : Heap × Nat :=
  (⟨h.cells ++ [v]⟩, h.cells.length)

/-- A chart-library instance as the clone claims see it: the addresses of
its `config.data` and `config.options` object graphs, and whether it has
been destroyed. -/
structure ChartObj where
  dataAddr : Nat
  optsAddr : Nat
  destroyed : Bool
deriving DecidableEq, Repr

/-- The cloning part of `openModalForChart(sourceChart, …)`: deep-copy the
source chart's data (`JSON.parse(JSON.stringify(sourceChart.config.data))`)
and its options (first defaulted with `|| {}` exactly as
`sourceChart.config.options || {}`), apply the zoom/pan option merge to the
cloned options, allocate both clones as fresh objects, and build the modal
chart on them.  Returns the grown heap and the modal chart. -/
def openModalClone (h : Heap) (src : ChartObj) : Heap × ChartObj :=
  let dataClone := jsonDeepCopy (readCell h src.dataAddr)
  let srcOpts := jsOrElse (.val (readCell h src.optsAddr)) (.obj [])
  let optsClone := mergeModalOptions (jsonDeepCopy srcOpts)
  let (h1, a1) := allocCell h dataClone
  let (h2, a2) := allocCell h1 optsClone
  (h2, ⟨a1, a2, false⟩)

/-- `chart.destroy()` in the heap model: releases the instance's canvas
binding and marks it destroyed; it performs no write to any heap cell, so in
particular it touches neither its own nor any other chart's data or options
graphs. -/
def destroyChartObj (h : Heap) (c : ChartObj) : Heap × ChartObj :=
  (h, { c with destroyed := true })

/-- The four chart slots as `renderCharts` fills them on the page: `none`
while no chart has ever been rendered on that canvas. -/
structure ChartSlots where
  booksPerCategory : Option ChartSpec
  loansOverTime : Option ChartSpec
  loanStatus : Option ChartSpec
  language : Option ChartSpec

/-- `renderCharts(data)`: the four render functions run in order, each
replacing its slot's dataset on success (the lifecycle bookkeeping of the
replacement is `renderSlot`; here the datasets themselves are tracked).  A
`TypeError` thrown inside any render aborts the remaining renders: the
slots already re-rendered keep their new datasets, the rest keep their old
ones, and the exception propagates out of the `.then` (to be caught by
`loadBookStats`'s `.catch`).  Returns the resulting slots and whether a
throw escaped. -/
def renderChartsE (data : Json) (s : ChartSlots) : ChartSlots × Bool :=
  match renderBooksPerCategoryE data with
  | .error _ => (s, true)
  | .ok sp1 =>
      let s1 := { s with booksPerCategory := some sp1 }
      match renderLoansOverTimeE data with
      | .error _ => (s1, true)
      | .ok sp2 =>
          let s2 := { s1 with loansOverTime := some sp2 }
          match renderLoanStatusE data with
          | .error _ => (s2, true)
          | .ok sp3 =>
              let s3 := { s2 with loanStatus := some sp3 }
              match renderLanguageE data with
              | .error _ => (s3, true)
              | .ok sp4 => ({ s3 with language := some sp4 }, false)

/-- `escapeHtml` on one character: the entity substitutions a text-to-HTML
round-trip through `div.textContent` / `div.innerHTML` performs. -/
def escapeChar (c : Char) : List Char :=
  if c = '&' then "&amp;".toList
  else if c = '<' then "&lt;".toList
  else if c = '>' then "&gt;".toList
  else [c]

/-- `escapeHtml(text)`: HTML-escape every character of the text. -/
def escapeHtml (s : String) : String :=
  String.mk (s.toList.map escapeChar).flatten

/-- The markup one activity entry contributes (message, details and
relative-time fields each escaped).  The template literal's indentation
whitespace is omitted; no claim depends on it. -/
def activityItemHtml (message details ago : String) : String :=
  "<div class=\"activity-item\"><div><strong>" ++ escapeHtml message ++
  "</strong><br><small>" ++ escapeHtml details ++
  "</small></div><div class=\"activity-time\">" ++ escapeHtml ago ++
  "</div></div>"

/-- The `.then` branch of `loadRecentActivity`: a missing list element
returns early; a payload whose `activities` is a non-empty array renders the
joined item markup; anything else renders the literal no-activity
placeholder (`data.activities && data.activities.length > 0` is false for
every falsy or empty value; a truthy non-array `activities`, which would
throw in the browser, is not exercised by any claim). -/
def activityThen (data : Json) (el : Option String) : Option String :=
  match el with
  | none => none
  | some _ =>
      match jsPropOf data "activities" with
      | .val (.arr (x :: xs)) =>
          some (String.join (((x :: xs).map (fun a =>
            activityItemHtml (displayString (jsPropOf a "message"))
              (displayString (jsPropOf a "details"))
              (displayString (jsPropOf a "ago"))))))
      | _ => some "<p>No recent activity</p>"

/-- `loadRecentActivity`: fetch the activity payload with `fetchJSON`; on
success run the `.then` branch, on any rejection log the error and, when the
list element exists, replace its contents with the error placeholder.
Returns the list element's contents and whether the catch handler ran. -/
def loadRecentActivity (netResult : Option HttpResponse) (el : Option String) :
    Option String × Bool :=
  match fetchJSONNet netResult with
  | .ok data => (activityThen data el, false)
  | .error _ =>
      (match el with
       | some _ => some "<p>Error loading recent activity</p>"
       | none => none, true)

/-- `fetch(...).then(r => r.json())` as `loadBookStats` performs it — no
status or content-type check — so its outcome is the parsed body, or `none`
when the `fetch` itself rejected or the body is not valid JSON. -/
def parsedBody (netResult : Option HttpResponse) : Option Json :=
  match netResult with
  | none => none
  | some r => r.bodyJson

/-- The chart part of `loadBookStats`: a raw `fetch` plus `r.json()`, whose
payload is handed to `renderCharts`.  The failures its single `.catch`
(`err => console.error(…)`) sees are a rejected `fetch`, an unparseable
body, and a `TypeError` thrown inside `renderCharts` on a shape-mismatch
payload; the handler only logs, so the slots hold whatever the load left:
unchanged for the first two failures, and the renders completed before the
throw for the third.  Returns the slots and whether the catch handler
ran. -/
def loadBookStatsApply (netResult : Option HttpResponse) (slots : ChartSlots) :
    ChartSlots × Bool :=
  match parsedBody netResult with
  | none => (slots, true)
  | some data => renderChartsE data slots

/-- The page regions the three data loads touch, plus the diagnostic console
(one entry per `console.error` call, holding the log message prefix). -/
structure PageState where
  counters : Counters
  activityHtml : Option String
  slots : ChartSlots
  console : List String

/-- `loadDashboardStats` at page level: update the counters and log on
failure. -/
def pageLoadSummary (netResult : Option HttpResponse) (st : PageState) :
    PageState :=
  let r := loadDashboardStats netResult st.counters
  { st with
      counters := r.1,
      console := if r.2 then st.console ++ ["Error loading stats:"] else st.console }

/-- `loadRecentActivity` at page level: update the activity region and log on
failure. -/
def pageLoadActivity (netResult : Option HttpResponse) (st : PageState) :
    PageState :=
  let r := loadRecentActivity netResult st.activityHtml
  { st with
      activityHtml := r.1,
      console := if r.2 then st.console ++ ["Error loading activity:"] else st.console }

/-- `loadBookStats` at page level: update the chart slots and log on
failure. -/
def pageLoadBookStats (netResult : Option HttpResponse) (st : PageState) :
    PageState :=
  let r := loadBookStatsApply netResult st.slots
  { st with
      slots := r.1,
      console := if r.2 then st.console ++ ["Error loading book stats:"] else st.console }

/-- Written from the spec's words for the claim about error handling: a
chart slot in the degraded state the claim asserts after a failed load — an
*empty* chart (a rendered chart with no labels and no values) or an *absent*
one (no chart instance on the canvas). -/
def specEmptyOrAbsentChart (o : Option ChartSpec) : Bool :=
  match o with
  | none => true
  | some sp => sp.labels.isEmpty && sp.values.isEmpty

/-- A response with OK status and JSON content type whose body nevertheless
is not valid JSON, so `response.json()` rejects. -/
def rBadParse : HttpResponse :=
  { status := 200, contentType := "application/json",
    bodyText := "not json".toList, bodyJson := none }

/-- A server-error response carrying an HTML page. -/
def rHtmlError : HttpResponse :=
  { status := 500, contentType := "text/html; charset=utf-8",
    bodyText := "<html>Server Error</html>".toList, bodyJson := none }

/-- A summary response whose payload lacks the `requests` object: the first
two counter updates succeed, then `data.requests.pending` throws. -/
def respSummaryPartial : HttpResponse :=
  { status := 200, contentType := "application/json",
    bodyText := "omitted".toList,
    bodyJson := some (.obj
      [("basic", .obj [("total_books", .num 1234), ("total_users", .num 56)]),
       ("loans", .obj [("overdue", .num 2)])]) }

/-- Counters as the page template initially shows them. -/
def countersStart : Counters :=
  { books := "0", users := "0", pending := "0", overdue := "0" }

/-- A statistics payload with 25 category entries and 15 language entries. -/
def statsPayloadWide : Json :=
  .obj [("category_book_counts", .arr ((List.range 25).map (fun i =>
          .obj [("name", .str (toString i)), ("total_books", .num i)]))),
        ("language_distribution", .arr ((List.range 15).map (fun i =>
          .obj [("language", .str (toString i)), ("total", .num i)])))]

/-- A small statistics payload with one entry per dataset. -/
def statsPayloadSmall : Json :=
  .obj [("category_book_counts", .arr [.obj [("name", .str "Fiction"),
                                             ("total_books", .num 7)]]),
        ("time_series", .obj [("labels", .arr [.str "2025-01"]),
                              ("values", .arr [.num 3])]),
        ("status_distribution", .arr [.obj [("status", .str "PENDING"),
                                            ("total", .num 4)]]),
        ("language_distribution", .arr [.obj [("language", .str "vi"),
                                              ("total", .num 5)]])]

/-- A chart-statistics response for `statsPayloadSmall`. -/
def rStatsOk : HttpResponse :=
  { status := 200, contentType := "application/json",
    bodyText := "omitted".toList, bodyJson := some statsPayloadSmall }

/-- A chart-statistics response whose body fails to parse, so `r.json()`
rejects inside `loadBookStats`. -/
def rStatsBad : HttpResponse :=
  { status := 500, contentType := "text/html",
    bodyText := "<html>boom</html>".toList, bodyJson := none }

/-- A chart-statistics response with a shape-mismatch payload: the category
dataset is a proper array but `status_distribution` is an object, so
`sd.map` throws inside `renderCharts` after the first two slots were
re-rendered. -/
def rStatsShape : HttpResponse :=
  { status := 200, contentType := "application/json",
    bodyText := "omitted".toList,
    bodyJson := some (.obj
      [("category_book_counts", .arr [.obj [("name", .str "Fiction"),
                                            ("total_books", .num 7)]]),
       ("status_distribution", .obj [])]) }

/-- The page before any load completes: template counters, empty activity
list element present, no chart ever rendered, empty console. -/
def pageStart : PageState :=
  { counters := countersStart, activityHtml := some "",
    slots := { booksPerCategory := none, loansOverTime := none,
               loanStatus := none, language := none },
    console := [] }

/-- A two-cell heap holding one chart's data and options graphs. -/
def heapW : Heap :=
  ⟨[.obj [("labels", .arr [.str "a"]), ("datasets", .arr [.num 3])],
    .obj [("responsive", .bool true)]]⟩

/-- A source chart whose data and options live at the two cells of
`heapW`. -/
def srcW : ChartObj :=
  { dataAddr := 0, optsAddr := 1, destroyed := false }


/-! ## Theorems -/

theorem fetchJSON_cond_eq (r : HttpResponse) :
    (!respOk r || !strIncludes r.contentType.toList "application/json".toList)
      = !okJsonResponse r := by
  unfold okJsonResponse
  cases respOk r <;>
    cases strIncludes r.contentType.toList "application/json".toList <;> rfl

/-- C4 (counterexample): the claim "fetchJSON succeeds if and only if the
status indicates success and the content type is JSON" is false: this
response has status 200 and content type `application/json`, yet `fetchJSON`
fails, because its body is not valid JSON and `response.json()` rejects. -/
theorem fetchJSON_iff_counterexample :
    okJsonResponse rBadParse = true ∧
    fetchSucceeded (fetchJSON rBadParse) = false := by
  decide

/-- C4 (amended): `fetchJSON` succeeds, resolving to the parsed JSON body,
if and only if the response status indicates success, the declared content
type is JSON, *and* the body parses as JSON; whenever the status is not a
success or the content type is not JSON it fails with an error carrying the
response status code and a body excerpt truncated to at most 200 characters
(an OK-and-JSON response with an unparseable body instead fails with the
parse rejection). -/
theorem fetchJSON_success_amended (r : HttpResponse) :
    (fetchSucceeded (fetchJSON r) = true ↔
      okJsonResponse r = true ∧ r.bodyJson.isSome = true) ∧
    (okJsonResponse r = false →
      fetchJSON r = .error (.unexpected r.status (r.bodyText.take 200)) ∧
      (r.bodyText.take 200).length ≤ 200) := by
  constructor
  · unfold fetchJSON
    rw [fetchJSON_cond_eq]
    cases h : okJsonResponse r
    · simp [fetchSucceeded]
    · cases hb : r.bodyJson <;> simp [fetchSucceeded]
  · intro h
    unfold fetchJSON
    rw [fetchJSON_cond_eq, h]
    refine ⟨rfl, ?_⟩
    exact List.length_take_le 200 r.bodyText

/-- Witness for the amended C4 theorem at a concrete failing response: an
HTTP 500 HTML error page yields the structured unexpected-response error
with its status and short body excerpt. -/
theorem fetchJSON_success_amended_witness :
    fetchJSON rHtmlError =
      .error (.unexpected rHtmlError.status (rHtmlError.bodyText.take 200)) ∧
    (rHtmlError.bodyText.take 200).length ≤ 200 :=
  (fetchJSON_success_amended rHtmlError).2 (by decide)

theorem setAllDash_eq (c : Counters) :
    setAllDash c = { books := "-", users := "-", pending := "-", overdue := "-" } :=
  rfl

/-- C3: whenever the summary-statistics load fails — the catch handler runs,
for a network failure, a non-success status, a non-JSON body, or a missing
payload object that makes a counter update throw — all four counter displays
end up showing the placeholder dash, regardless of the counters' previous
contents and of how many updates succeeded before the failure; no failure
outcome leaves a partial mix of numbers and placeholders. -/
theorem loadDashboardStats_failure_all_dash
    (net : Option HttpResponse) (c : Counters)
    (h : (loadDashboardStats net c).2 = true) :
    (loadDashboardStats net c).1 =
      { books := "-", users := "-", pending := "-", overdue := "-" } := by
  cases hf : fetchJSONNet net with
  | error e => simp [loadDashboardStats, hf, setAllDash_eq]
  | ok data =>
      cases hs : statsThen data c with
      | ok c' =>
          exfalso
          simp [loadDashboardStats, hf, hs] at h
      | error cp => simp [loadDashboardStats, hf, hs, setAllDash_eq]

/-- Witness for C3 at a concrete input: a payload missing its `requests`
object updates the first two counters, then throws; the catch handler runs
and every counter shows the dash. -/
theorem loadDashboardStats_failure_all_dash_witness :
    (loadDashboardStats (some respSummaryPartial) countersStart).2 = true ∧
    (loadDashboardStats (some respSummaryPartial) countersStart).1 =
      { books := "-", users := "-", pending := "-", overdue := "-" } :=
  ⟨by decide, loadDashboardStats_failure_all_dash (some respSummaryPartial)
      countersStart (by decide)⟩

/-- C5: whenever the controls are read (period and year present, the period
selector holding one of its two options, the month control holding an
integer 1–12), the outgoing statistics query always carries the `period` and
`year` parameters, and carries the `month` parameter — the 1–12 integer —
exactly when the selected period is `month`; with period `year` no `month`
parameter appears at all. -/
theorem loadBookStatsQuery_month_exactly_for_month_period
    (period y mv : String) (monthNum : Nat)
    (hp : period = "year" ∨ period = "month")
    (hmv : mv = toString monthNum)
    (h1 : 1 ≤ monthNum) (h12 : monthNum ≤ 12) :
    ∃ ps, loadBookStatsQuery (some period) (some y) (some mv) = some ps ∧
      ("period", period) ∈ ps ∧ ("year", y) ∈ ps ∧
      ((∃ v, ("month", v) ∈ ps) ↔ period = "month") ∧
      (period = "month" →
        ("month", toString monthNum) ∈ ps ∧ 1 ≤ monthNum ∧ monthNum ≤ 12) := by
  subst hmv
  rcases hp with hp | hp <;> subst hp
  · refine ⟨[("period", "year"), ("year", y)], by simp [loadBookStatsQuery], ?_, ?_, ?_, ?_⟩
    · simp
    · simp
    · constructor
      · rintro ⟨v, hv⟩
        simp at hv
      · intro h
        exact absurd h (by decide)
    · intro h
      exact absurd h (by decide)
  · refine ⟨[("period", "month"), ("year", y), ("month", toString monthNum)],
      by simp [loadBookStatsQuery], ?_, ?_, ?_, ?_⟩
    · simp
    · simp
    · simp
    · intro _
      exact ⟨by simp, h1, h12⟩

/-- Witness for C5 at concrete control values: with period `month`, year
`2025` and month `3` the query carries all three parameters, serializing to
`period=month&year=2025&month=3`; with period `year` it carries no month
parameter, serializing to `period=year&year=2025`. -/
theorem loadBookStatsQuery_month_exactly_witness :
    (∃ ps, loadBookStatsQuery (some "month") (some "2025") (some "3") = some ps ∧
      ("period", "month") ∈ ps ∧ ("year", "2025") ∈ ps ∧
      ((∃ v, ("month", v) ∈ ps) ↔ "month" = "month") ∧
      ("month" = "month" →
        ("month", toString 3) ∈ ps ∧ 1 ≤ 3 ∧ 3 ≤ 12)) ∧
    serializeParams [("period", "month"), ("year", "2025"), ("month", "3")] =
      "period=month&year=2025&month=3" ∧
    serializeParams [("period", "year"), ("year", "2025")] =
      "period=year&year=2025" :=
  ⟨loadBookStatsQuery_month_exactly_for_month_period "month" "2025" "3" 3
      (Or.inr rfl) rfl (by decide) (by decide), by decide, by decide⟩

/-- C10: when the month control is absent from the DOM but the period and
year controls are present and the selected period is not `year`,
`loadBookStats` still issues the request, and the query carries the
hard-coded fallback `month=1` after `period` and `year`. -/
theorem loadBookStatsQuery_fallback_month_one
    (period y : String) (hp : period ≠ "year") :
    loadBookStatsQuery (some period) (some y) none =
      some [("period", period), ("year", y), ("month", "1")] := by
  simp [loadBookStatsQuery, hp]

/-- Witness for C10 at concrete control values: period `month`, year `2025`,
no month control; the query string is `period=month&year=2025&month=1`. -/
theorem loadBookStatsQuery_fallback_month_one_witness :
    loadBookStatsQuery (some "month") (some "2025") none =
      some [("period", "month"), ("year", "2025"), ("month", "1")] ∧
    serializeParams [("period", "month"), ("year", "2025"), ("month", "1")] =
      "period=month&year=2025&month=1" :=
  ⟨loadBookStatsQuery_fallback_month_one "month" "2025" (by decide), by decide⟩

/-- C6: for a statistics payload whose category and language datasets are
arrays, the rendered category chart uses only the first 20 category entries
and the rendered language chart only the first 12 language entries, each in
the server's order with no client-side sorting: position `i` of the rendered
labels/values is exactly the `name`/`total_books` (resp.
`language`/`total`) of payload entry `i`, positions from 20 (resp. 12)
onwards are absent, and 25 category entries render exactly 20 while 15
language entries render exactly 12. -/
theorem renderSpecs_truncation
    (data : Json) (cats langs : List Json)
    (hc : jsPropOf data "category_book_counts" = .val (.arr cats))
    (hl : jsPropOf data "language_distribution" = .val (.arr langs)) :
    ((renderBooksPerCategorySpec data).labels.length = min 20 cats.length ∧
     (renderBooksPerCategorySpec data).values.length = min 20 cats.length ∧
     (∀ i, i < 20 →
        (renderBooksPerCategorySpec data).labels[i]? =
          (cats[i]?).map (fun x => jsPropOf x "name") ∧
        (renderBooksPerCategorySpec data).values[i]? =
          (cats[i]?).map (fun x => jsPropOf x "total_books")) ∧
     (∀ i, 20 ≤ i → (renderBooksPerCategorySpec data).labels[i]? = none) ∧
     (cats.length = 25 → (renderBooksPerCategorySpec data).labels.length = 20)) ∧
    ((renderLanguageSpec data).labels.length = min 12 langs.length ∧
     (renderLanguageSpec data).values.length = min 12 langs.length ∧
     (∀ i, i < 12 →
        (renderLanguageSpec data).labels[i]? =
          (langs[i]?).map (fun x => jsPropOf x "language") ∧
        (renderLanguageSpec data).values[i]? =
          (langs[i]?).map (fun x => jsPropOf x "total")) ∧
     (∀ i, 12 ≤ i → (renderLanguageSpec data).labels[i]? = none) ∧
     (langs.length = 15 → (renderLanguageSpec data).labels.length = 12)) := by
  have hc' : jsArrElems (jsPropOf data "category_book_counts") = cats := by
    rw [hc]; rfl
  have hl' : jsArrElems (jsPropOf data "language_distribution") = langs := by
    rw [hl]; rfl
  constructor
  · refine ⟨?_, ?_, ?_, ?_, ?_⟩
    · simp [renderBooksPerCategorySpec, hc']
    · simp [renderBooksPerCategorySpec, hc']
    · intro i hi
      constructor <;>
        simp [renderBooksPerCategorySpec, hc', List.getElem?_take_of_lt hi]
    · intro i hi
      refine List.getElem?_eq_none ?_
      simp [renderBooksPerCategorySpec, hc']
      omega
    · intro h
      simp [renderBooksPerCategorySpec, hc', h]
  · refine ⟨?_, ?_, ?_, ?_, ?_⟩
    · simp [renderLanguageSpec, hl']
    · simp [renderLanguageSpec, hl']
    · intro i hi
      constructor <;>
        simp [renderLanguageSpec, hl', List.getElem?_take_of_lt hi]
    · intro i hi
      refine List.getElem?_eq_none ?_
      simp [renderLanguageSpec, hl']
      omega
    · intro h
      simp [renderLanguageSpec, hl', h]

/-- Witness for C6 at a concrete payload with 25 category entries and 15
language entries: exactly 20 and 12 render, and the first rendered label of
each chart is the first payload entry's name. -/
theorem renderSpecs_truncation_witness :
    (renderBooksPerCategorySpec statsPayloadWide).labels.length = 20 ∧
    (renderLanguageSpec statsPayloadWide).labels.length = 12 ∧
    (renderBooksPerCategorySpec statsPayloadWide).labels[0]? =
      some (.val (.str "0")) :=
  ⟨((renderSpecs_truncation statsPayloadWide
        ((List.range 25).map (fun i =>
          .obj [("name", .str (toString i)), ("total_books", .num i)]))
        ((List.range 15).map (fun i =>
          .obj [("language", .str (toString i)), ("total", .num i)]))
        (by rfl) (by rfl)).1.2.2.2.2 (by decide)),
   ((renderSpecs_truncation statsPayloadWide
        ((List.range 25).map (fun i =>
          .obj [("name", .str (toString i)), ("total_books", .num i)]))
        ((List.range 15).map (fun i =>
          .obj [("language", .str (toString i)), ("total", .num i)]))
        (by rfl) (by rfl)).2.2.2.2.2 (by decide)),
   by rfl⟩


theorem destroyChartRec_map_id (i : Nat) (cs : List ChartRec) :
    (destroyChartRec i cs).map ChartRec.id = cs.map ChartRec.id := by
  induction cs with
  | nil => rfl
  | cons c cs ih =>
      simp only [destroyChartRec, List.map_cons] at ih ⊢
      rw [ih]
      by_cases h : c.id = i <;> simp [h]

theorem filter_destroyChartRec (s : Slot) (i : Nat) (cs : List ChartRec) :
    (destroyChartRec i cs).filter (chartLive s)
      = (cs.filter (chartLive s)).filter (fun c => !decide (c.id = i)) := by
  induction cs with
  | nil => rfl
  | cons c cs ih =>
      simp only [destroyChartRec, List.map_cons, List.filter_cons] at ih ⊢
      by_cases hci : c.id = i
      · have hdead : chartLive s { c with destroyed := true } = false := by
          simp [chartLive]
        rw [if_pos hci, hdead]
        simp only [Bool.false_eq_true, if_false]
        rw [ih]
        by_cases hl : chartLive s c = true <;> simp [hl, hci]
      · rw [if_neg hci]
        by_cases hl : chartLive s c = true <;> simp [hl, hci, ih]

theorem mem_destroyChartRec_id {i : Nat} {cs : List ChartRec} {c : ChartRec}
    (h : c ∈ destroyChartRec i cs) : c.id ∈ cs.map ChartRec.id := by
  have h' : c.id ∈ (destroyChartRec i cs).map ChartRec.id :=
    List.mem_map_of_mem ChartRec.id h
  rwa [destroyChartRec_map_id] at h'

theorem destroyed_of_mem_destroyChartRec {i : Nat} {cs : List ChartRec}
    {c : ChartRec} (h : c ∈ destroyChartRec i cs) (hid : c.id = i) :
    c.destroyed = true := by
  unfold destroyChartRec at h
  rcases List.mem_map.mp h with ⟨c', hc', heq⟩
  by_cases h' : c'.id = i
  · rw [if_pos h'] at heq
    rw [← heq]
  · rw [if_neg h'] at heq
    exact absurd (heq ▸ hid) h'

/-- The well-formedness invariant the render loop maintains: every ledger id
is below the allocation counter, ledger ids are pairwise distinct, and for
each slot the live instances are exactly the one the slot variable points
to (none while the variable is `null`). -/
def slotInv (st : DashCharts) : Prop :=
  (∀ c ∈ st.charts, c.id < st.nextId) ∧
  (st.charts.map ChartRec.id).Nodup ∧
  (∀ s, (st.charts.filter (chartLive s)).map ChartRec.id
        = (st.slotRef s).elim [] (fun i => [i]))

theorem slotInv_init : slotInv initCharts := by
  refine ⟨?_, ?_, ?_⟩ <;> simp [initCharts]

theorem liveCount_of_inv {st : DashCharts} (h : slotInv st) (s : Slot) :
    liveCount s st = (st.slotRef s).elim 0 (fun _ => 1) := by
  obtain ⟨-, -, h3⟩ := h
  have h4 := congrArg List.length (h3 s)
  rw [List.length_map] at h4
  unfold liveCount
  rw [h4]
  cases st.slotRef s <;> rfl

theorem slotInv_renderSlot (t : Slot) (st : DashCharts) (h : slotInv st) :
    slotInv (renderSlot t st) := by
  obtain ⟨h1, h2, h3⟩ := h
  by_cases hc : st.canvasPresent t = true
  case neg => simpa [renderSlot, hc] using ⟨h1, h2, h3⟩
  case pos =>
  have hbound : ∀ cs : List ChartRec,
      (∀ c ∈ cs, c.id ∈ st.charts.map ChartRec.id) →
      ∀ c ∈ cs ++ [ChartRec.mk st.nextId t false], c.id < st.nextId + 1 := by
    intro cs hcs c hmem
    rcases List.mem_append.mp hmem with hm | hm
    · rcases List.mem_map.mp (hcs c hm) with ⟨c', hc', hid⟩
      have := h1 c' hc'
      omega
    · rcases List.mem_singleton.mp hm with rfl
      show st.nextId < st.nextId + 1
      omega
  have hnodup : ∀ cs : List ChartRec,
      cs.map ChartRec.id = st.charts.map ChartRec.id →
      ((cs ++ [ChartRec.mk st.nextId t false]).map ChartRec.id).Nodup := by
    intro cs hcs
    rw [List.map_append, hcs]
    simp only [List.map_cons, List.map_nil]
    rw [List.nodup_append]
    refine ⟨h2, List.nodup_singleton _, ?_⟩
    intro a ha hb
    rcases List.mem_map.mp ha with ⟨c', hc', hid⟩
    rcases List.mem_singleton.mp hb with rfl
    have := h1 c' hc'
    omega
  rcases hsr : st.slotRef t with - | i
  · have hfe : st.charts.filter (chartLive t) = [] := by
      have h3t := h3 t
      rw [hsr] at h3t
      exact List.map_eq_nil_iff.mp h3t
    refine ⟨?_, ?_, ?_⟩
    · intro c hmem
      simp only [renderSlot, hc, if_true, hsr] at hmem ⊢
      exact hbound st.charts
        (fun c hm => List.mem_map_of_mem ChartRec.id hm) c hmem
    · simp only [renderSlot, hc, if_true, hsr]
      exact hnodup st.charts rfl
    · intro s
      simp only [renderSlot, hc, if_true, hsr, List.filter_append]
      by_cases hst : s = t
      · subst hst
        rw [hfe]
        simp [chartLive]
      · have hnew : chartLive s (ChartRec.mk st.nextId t false) = false := by
          simp only [chartLive, Bool.not_false, Bool.and_true,
            decide_eq_false_iff_not]
          exact fun hh => hst hh.symm
        simp [List.filter_cons, hnew, h3 s, hst]
  · have h3t := h3 t
    rw [hsr] at h3t
    rcases hft : st.charts.filter (chartLive t) with - | ⟨c₀, rest⟩
    · rw [hft] at h3t
      simp at h3t
    · rw [hft] at h3t
      simp only [List.map_cons, Option.elim] at h3t
      have hpair := List.cons_eq_cons.mp h3t
      have hc₀id : c₀.id = i := hpair.1
      have hrest : rest = [] := List.map_eq_nil_iff.mp hpair.2
      have hc₀mem : c₀ ∈ st.charts :=
        (List.mem_filter.mp (hft ▸ List.mem_cons_self c₀ rest)).1
      have hc₀live : chartLive t c₀ = true :=
        (List.mem_filter.mp (hft ▸ List.mem_cons_self c₀ rest)).2
      refine ⟨?_, ?_, ?_⟩
      · intro c hmem
        simp only [renderSlot, hc, if_true, hsr] at hmem ⊢
        exact hbound (destroyChartRec i st.charts)
          (fun c hm => mem_destroyChartRec_id hm) c hmem
      · simp only [renderSlot, hc, if_true, hsr]
        exact hnodup (destroyChartRec i st.charts) (destroyChartRec_map_id i st.charts)
      · intro s
        simp only [renderSlot, hc, if_true, hsr, List.filter_append,
          filter_destroyChartRec]
        by_cases hst : s = t
        · subst hst
          rw [hft, hrest]
          have hq : (!decide (c₀.id = i)) = false := by simp [hc₀id]
          simp [List.filter_cons, hq, chartLive]
        · have hkeep : (st.charts.filter (chartLive s)).filter
              (fun c => !decide (c.id = i)) = st.charts.filter (chartLive s) := by
            refine List.filter_eq_self.mpr ?_
            intro c hm
            have hcm := List.mem_filter.mp hm
            simp only [Bool.not_eq_eq_eq_not, Bool.not_true,
              decide_eq_false_iff_not]
            intro hci
            have hceq : c = c₀ :=
              List.inj_on_of_nodup_map h2 hcm.1 hc₀mem (by rw [hci, hc₀id])
            subst hceq
            have hs' : c.slot = s := by
              have := hcm.2
              simp only [chartLive, Bool.and_eq_true, decide_eq_true_eq] at this
              exact this.1
            have ht' : c.slot = t := by
              simp only [chartLive, Bool.and_eq_true, decide_eq_true_eq] at hc₀live
              exact hc₀live.1
            exact hst (hs' ▸ ht')
          rw [hkeep]
          have hnew : chartLive s (ChartRec.mk st.nextId t false) = false := by
            simp only [chartLive, Bool.not_false, Bool.and_true,
              decide_eq_false_iff_not]
            exact fun hh => hst hh.symm
          simp [List.filter_cons, hnew, h3 s, hst]

theorem slotInv_runRenders (ops : List Slot) {st : DashCharts}
    (h : slotInv st) : slotInv (runRenders ops st) := by
  induction ops generalizing st with
  | nil => exact h
  | cons t ops ih => exact ih (slotInv_renderSlot t st h)

theorem canvasPresent_renderSlot (t : Slot) (st : DashCharts) :
    (renderSlot t st).canvasPresent = st.canvasPresent := by
  unfold renderSlot
  split <;> rfl

theorem canvasPresent_runRenders (ops : List Slot) (st : DashCharts) :
    (runRenders ops st).canvasPresent = st.canvasPresent := by
  induction ops generalizing st with
  | nil => rfl
  | cons t ops ih =>
      show (runRenders ops (renderSlot t st)).canvasPresent = _
      rw [ih (renderSlot t st), canvasPresent_renderSlot]

theorem slotRef_renderSlot_self (t : Slot) (st : DashCharts)
    (h : st.canvasPresent t = true) :
    (renderSlot t st).slotRef t = some st.nextId := by
  unfold renderSlot
  rw [if_pos h]
  simp

theorem slotRef_isSome_replicate (s : Slot) :
    ∀ (k : Nat) (st : DashCharts), st.canvasPresent s = true →
      ((runRenders (List.replicate (k + 1) s) st).slotRef s).isSome = true := by
  intro k
  induction k with
  | zero =>
      intro st h
      show ((renderSlot s st).slotRef s).isSome = true
      rw [slotRef_renderSlot_self s st h]
      rfl
  | succ k ih =>
      intro st h
      show ((runRenders (List.replicate (k + 1) s) (renderSlot s st)).slotRef s).isSome
        = true
      exact ih (renderSlot s st)
        (by rw [canvasPresent_renderSlot]; exact h)

theorem runRenders_append (a b : List Slot) (st : DashCharts) :
    runRenders (a ++ b) st = runRenders b (runRenders a st) := by
  simp [runRenders, List.foldl_append]

/-- C1: each of the four chart slots holds at most one live chart-library
instance after any sequence of renders; a render for a slot that already
holds an instance destroys that instance before constructing the
replacement; and re-rendering the same slot N ≥ 1 times in sequence (after
any prior history) leaves exactly one live chart instance in that slot. -/
theorem slot_destroy_before_create_single_instance
    (ops : List Slot) (s : Slot) (N : Nat) (hN : 1 ≤ N) :
    liveCount s (runRenders (ops ++ List.replicate N s) initCharts) = 1 ∧
    (∀ s', liveCount s' (runRenders ops initCharts) ≤ 1) ∧
    (∀ old, (runRenders ops initCharts).slotRef s = some old →
      ∀ c ∈ (renderSlot s (runRenders ops initCharts)).charts,
        c.id = old → c.destroyed = true) := by
  have hInvOps : slotInv (runRenders ops initCharts) :=
    slotInv_runRenders ops slotInv_init
  have hca : (runRenders ops initCharts).canvasPresent s = true := by
    rw [canvasPresent_runRenders]
    rfl
  refine ⟨?_, ?_, ?_⟩
  · obtain ⟨k, rfl⟩ : ∃ k, N = k + 1 := ⟨N - 1, by omega⟩
    have hsome := slotRef_isSome_replicate s k (runRenders ops initCharts) hca
    have hInv : slotInv
        (runRenders (List.replicate (k + 1) s) (runRenders ops initCharts)) :=
      slotInv_runRenders _ hInvOps
    rw [runRenders_append, liveCount_of_inv hInv s]
    rcases hx : (runRenders (List.replicate (k + 1) s)
        (runRenders ops initCharts)).slotRef s with - | j
    · rw [hx] at hsome
      simp at hsome
    · rfl
  · intro s'
    rw [liveCount_of_inv hInvOps s']
    cases (runRenders ops initCharts).slotRef s' <;> simp
  · intro old hold c hmem hcid
    unfold renderSlot at hmem
    rw [if_pos hca] at hmem
    simp only [hold] at hmem
    rcases List.mem_append.mp hmem with hm | hm
    · exact destroyed_of_mem_destroyChartRec hm hcid
    · exfalso
      rcases List.mem_singleton.mp hm with rfl
      obtain ⟨h1, h2, h3⟩ := hInvOps
      have h3s := h3 s
      rw [hold] at h3s
      rcases hft : (runRenders ops initCharts).charts.filter (chartLive s)
          with - | ⟨c₀, rest⟩
      · rw [hft] at h3s
        simp at h3s
      · rw [hft] at h3s
        simp only [List.map_cons, Option.elim] at h3s
        have hc₀id : c₀.id = old := (List.cons_eq_cons.mp h3s).1
        have hc₀mem : c₀ ∈ (runRenders ops initCharts).charts :=
          (List.mem_filter.mp (hft ▸ List.mem_cons_self c₀ rest)).1
        have hlt := h1 c₀ hc₀mem
        have hcid' : (runRenders ops initCharts).nextId = old := hcid
        omega

/-- Witness for C1 at a concrete input: after three successive renders of
the loan-status slot from the initial page state, that slot holds exactly
one live chart instance. -/
theorem slot_destroy_before_create_single_instance_witness :
    liveCount Slot.loanStatus
      (runRenders ([] ++ List.replicate 3 Slot.loanStatus) initCharts) = 1 :=
  (slot_destroy_before_create_single_instance [] Slot.loanStatus 3 (by decide)).1

theorem listeners_runRenders (s : Slot) :
    ∀ (ops : List Slot) (st : DashCharts),
      (∀ s', st.canvasPresent s' = true) →
      (runRenders ops st).listeners s
        = st.listeners s + ops.countP (fun x => decide (x = s)) := by
  intro ops
  induction ops with
  | nil =>
      intro st h
      simp [runRenders]
  | cons t ops ih =>
      intro st h
      show (runRenders ops (renderSlot t st)).listeners s = _
      rw [ih (renderSlot t st)
        (fun s' => by rw [canvasPresent_renderSlot]; exact h s')]
      have hl : (renderSlot t st).listeners s
          = st.listeners s + if s = t then 1 else 0 := by
        unfold renderSlot
        rw [if_pos (h t)]
        by_cases hts : s = t <;> simp [hts]
      rw [hl, List.countP_cons]
      by_cases hts : s = t
      · subst hts
        simp
        omega
      · have : decide (t = s) = false := by
          simp
          exact fun hh => hts hh.symm
        simp [hts, this]

/-- C2 (counterexample): the claim "re-rendering a slot N times leaves
exactly one click listener on its canvas" is false at N = 2: two successive
renders of the category slot leave two click listeners on its canvas —
every render calls `addEventListener` with a fresh closure and no render
removes the previous one, so listeners accumulate. -/
theorem slot_listener_counterexample :
    (runRenders [Slot.booksPerCategory, Slot.booksPerCategory]
        initCharts).listeners Slot.booksPerCategory = 2 ∧
    ¬((runRenders [Slot.booksPerCategory, Slot.booksPerCategory]
        initCharts).listeners Slot.booksPerCategory = 1) := by
  constructor
  · rfl
  · intro h
    exact absurd h (by decide)

/-- C2 (amended): after a sequence of renders from the initial page state, a
slot's canvas carries as many click listeners as there were renders of that
slot — one listener is added per chart construction and none is ever
removed, so re-rendering a slot N times leaves N click listeners on its
canvas, not one. -/
theorem slot_listener_accumulation (ops : List Slot) (s : Slot) :
    (runRenders ops initCharts).listeners s
      = ops.countP (fun x => decide (x = s)) := by
  have h := listeners_runRenders s ops initCharts (fun s' => rfl)
  simpa [initCharts] using h

theorem destroyModalRec_map_id (i : Nat) (cs : List ModalChartRec) :
    (destroyModalRec i cs).map ModalChartRec.id = cs.map ModalChartRec.id := by
  induction cs with
  | nil => rfl
  | cons c cs ih =>
      simp only [destroyModalRec, List.map_cons] at ih ⊢
      rw [ih]
      by_cases h : c.id = i <;> simp [h]

theorem filter_destroyModalRec (i : Nat) (cs : List ModalChartRec) :
    (destroyModalRec i cs).filter (fun c => !c.destroyed)
      = (cs.filter (fun c => !c.destroyed)).filter
          (fun c => !decide (c.id = i)) := by
  induction cs with
  | nil => rfl
  | cons c cs ih =>
      simp only [destroyModalRec, List.map_cons, List.filter_cons] at ih ⊢
      by_cases hci : c.id = i
      · rw [if_pos hci]
        simp only [Bool.not_true, Bool.false_eq_true, if_false]
        rw [ih]
        by_cases hl : (!c.destroyed) = true <;> simp [hl, hci]
      · rw [if_neg hci]
        by_cases hl : (!c.destroyed) = true <;> simp [hl, hci, ih]

theorem destroyed_of_mem_destroyModalRec {i : Nat} {cs : List ModalChartRec}
    {c : ModalChartRec} (h : c ∈ destroyModalRec i cs) (hid : c.id = i) :
    c.destroyed = true := by
  unfold destroyModalRec at h
  rcases List.mem_map.mp h with ⟨c', hc', heq⟩
  by_cases h' : c'.id = i
  · rw [if_pos h'] at heq
    rw [← heq]
  · rw [if_neg h'] at heq
    exact absurd (heq ▸ hid) h'

/-- The well-formedness invariant the modal controller maintains: every
ledger id is below the allocation counter, ids are pairwise distinct, and
the live modal instances are exactly the one `modalChartInstance` points to
(none while it is `null`). -/
def modalInv (st : ModalSys) : Prop :=
  (∀ c ∈ st.modalCharts, c.id < st.nextId) ∧
  (st.modalCharts.map ModalChartRec.id).Nodup ∧
  ((st.modalCharts.filter (fun c => !c.destroyed)).map ModalChartRec.id
    = st.current.elim [] (fun i => [i]))

theorem modalInv_init : modalInv initModal := by
  refine ⟨?_, ?_, ?_⟩ <;> simp [initModal]

theorem modalLiveCount_of_inv {st : ModalSys} (h : modalInv st) :
    modalLiveCount st = st.current.elim 0 (fun _ => 1) := by
  obtain ⟨-, -, h3⟩ := h
  have h4 := congrArg List.length h3
  rw [List.length_map] at h4
  unfold modalLiveCount
  rw [h4]
  cases st.current <;> rfl

theorem ensureModal_fields (st : ModalSys) :
    (ensureModal st).modalCharts = st.modalCharts ∧
    (ensureModal st).current = st.current ∧
    (ensureModal st).nextId = st.nextId := by
  unfold ensureModal
  split <;> exact ⟨rfl, rfl, rfl⟩

theorem modal_filter_of_current {st : ModalSys} (h : modalInv st) {i : Nat}
    (hcur : st.current = some i) :
    ∃ c₀, st.modalCharts.filter (fun c => !c.destroyed) = [c₀] ∧
      c₀.id = i ∧ c₀ ∈ st.modalCharts := by
  obtain ⟨-, -, h3⟩ := h
  rw [hcur] at h3
  rcases hft : st.modalCharts.filter (fun c => !c.destroyed) with - | ⟨c₀, rest⟩
  · rw [hft] at h3
    simp at h3
  · rw [hft] at h3
    simp only [List.map_cons, Option.elim] at h3
    have hpair := List.cons_eq_cons.mp h3
    have hrest : rest = [] := List.map_eq_nil_iff.mp hpair.2
    exact ⟨c₀, by rw [hft, hrest], hpair.1,
      (List.mem_filter.mp (hft ▸ List.mem_cons_self c₀ rest)).1⟩

theorem modalInv_open (st : ModalSys) (h : modalInv st) :
    modalInv (openModalLifecycle st) := by
  obtain ⟨he1, he2, he3⟩ := ensureModal_fields st
  obtain ⟨h1, h2, h3⟩ := h
  have hbound : ∀ c ∈ st.modalCharts, c.id < st.nextId := h1
  rcases hcur : st.current with - | i
  · have hfe : st.modalCharts.filter (fun c => !c.destroyed) = [] := by
      have h3' := h3
      rw [hcur] at h3'
      exact List.map_eq_nil_iff.mp h3'
    refine ⟨?_, ?_, ?_⟩
    · intro c hmem
      simp only [openModalLifecycle, he1, he2, he3, hcur] at hmem ⊢
      rcases List.mem_append.mp hmem with hm | hm
      · have := h1 c hm
        omega
      · rcases List.mem_singleton.mp hm with rfl
        show st.nextId < st.nextId + 1
        omega
    · simp only [openModalLifecycle, he1, he2, he3, hcur]
      rw [List.map_append]
      simp only [List.map_cons, List.map_nil]
      rw [List.nodup_append]
      refine ⟨h2, List.nodup_singleton _, ?_⟩
      intro a ha hb
      rcases List.mem_map.mp ha with ⟨c', hc', hid⟩
      rcases List.mem_singleton.mp hb with rfl
      have := h1 c' hc'
      omega
    · simp only [openModalLifecycle, he1, he2, he3, hcur, List.filter_append]
      rw [hfe]
      simp
  · obtain ⟨c₀, hft, hc₀id, hc₀mem⟩ :=
      modal_filter_of_current ⟨h1, h2, h3⟩ hcur
    refine ⟨?_, ?_, ?_⟩
    · intro c hmem
      simp only [openModalLifecycle, he1, he2, he3, hcur] at hmem ⊢
      rcases List.mem_append.mp hmem with hm | hm
      · have h' : c.id ∈ st.modalCharts.map ModalChartRec.id := by
          have := List.mem_map_of_mem ModalChartRec.id hm
          rwa [destroyModalRec_map_id] at this
        rcases List.mem_map.mp h' with ⟨c', hc', hid⟩
        have := h1 c' hc'
        omega
      · rcases List.mem_singleton.mp hm with rfl
        show st.nextId < st.nextId + 1
        omega
    · simp only [openModalLifecycle, he1, he2, he3, hcur]
      rw [List.map_append, destroyModalRec_map_id]
      simp only [List.map_cons, List.map_nil]
      rw [List.nodup_append]
      refine ⟨h2, List.nodup_singleton _, ?_⟩
      intro a ha hb
      rcases List.mem_map.mp ha with ⟨c', hc', hid⟩
      rcases List.mem_singleton.mp hb with rfl
      have := h1 c' hc'
      omega
    · simp only [openModalLifecycle, he1, he2, he3, hcur, List.filter_append,
        filter_destroyModalRec]
      rw [hft]
      have hq : (!decide (c₀.id = i)) = false := by simp [hc₀id]
      simp [List.filter_cons, hq]

theorem modalInv_close (st : ModalSys) (h : modalInv st) :
    modalInv (closeModalLifecycle st) := by
  obtain ⟨h1, h2, h3⟩ := h
  rcases hcur : st.current with - | i
  · refine ⟨?_, ?_, ?_⟩
    · intro c hmem
      simp only [closeModalLifecycle, hcur] at hmem ⊢
      exact h1 c hmem
    · simp only [closeModalLifecycle, hcur]
      exact h2
    · simp only [closeModalLifecycle, hcur]
      have h3' := h3
      rw [hcur] at h3'
      exact h3'
  · obtain ⟨c₀, hft, hc₀id, hc₀mem⟩ :=
      modal_filter_of_current ⟨h1, h2, h3⟩ hcur
    refine ⟨?_, ?_, ?_⟩
    · intro c hmem
      simp only [closeModalLifecycle, hcur] at hmem ⊢
      have h' : c.id ∈ st.modalCharts.map ModalChartRec.id := by
        have := List.mem_map_of_mem ModalChartRec.id hmem
        rwa [destroyModalRec_map_id] at this
      rcases List.mem_map.mp h' with ⟨c', hc', hid⟩
      have := h1 c' hc'
      omega
    · simp only [closeModalLifecycle, hcur]
      rw [destroyModalRec_map_id]
      exact h2
    · simp only [closeModalLifecycle, hcur, filter_destroyModalRec]
      rw [hft]
      have hq : (!decide (c₀.id = i)) = false := by simp [hc₀id]
      simp [List.filter_cons, hq]

theorem modalInv_runModal (ops : List ModalOp) {st : ModalSys}
    (h : modalInv st) : modalInv (runModal ops st) := by
  induction ops generalizing st with
  | nil => exact h
  | cons op ops ih =>
      cases op with
      | expandClick => exact ih (modalInv_open st h)
      | closeClick => exact ih (modalInv_close st h)

/-- C7: after any sequence of expand and close actions, at most one modal
chart instance is live; `openModalForChart` destroys any previously open
modal chart instance before constructing the new one, so opening twice in
succession leaves exactly one live modal chart instance; and `closeModal`
destroys the modal chart instance (leaving zero live) while keeping the
modal DOM shell for reuse. -/
theorem modal_single_instance (ops : List ModalOp) :
    modalLiveCount (runModal ops initModal) ≤ 1 ∧
    modalLiveCount
      (openModalLifecycle (openModalLifecycle (runModal ops initModal))) = 1 ∧
    (∀ old, (runModal ops initModal).current = some old →
      ∀ c ∈ (openModalLifecycle (runModal ops initModal)).modalCharts,
        c.id = old → c.destroyed = true) ∧
    (closeModalLifecycle (runModal ops initModal)).shellBuilt
      = (runModal ops initModal).shellBuilt ∧
    modalLiveCount (closeModalLifecycle (runModal ops initModal)) = 0 := by
  have hInv : modalInv (runModal ops initModal) :=
    modalInv_runModal ops modalInv_init
  refine ⟨?_, ?_, ?_, rfl, ?_⟩
  · rw [modalLiveCount_of_inv hInv]
    cases (runModal ops initModal).current <;> simp
  · have hInv2 : modalInv (openModalLifecycle (openModalLifecycle
        (runModal ops initModal))) :=
      modalInv_open _ (modalInv_open _ hInv)
    rw [modalLiveCount_of_inv hInv2]
    rfl
  · intro old hold c hmem hcid
    obtain ⟨he1, he2, he3⟩ := ensureModal_fields (runModal ops initModal)
    simp only [openModalLifecycle, he1, he2, he3, hold] at hmem
    rcases List.mem_append.mp hmem with hm | hm
    · exact destroyed_of_mem_destroyModalRec hm hcid
    · exfalso
      rcases List.mem_singleton.mp hm with rfl
      obtain ⟨c₀, -, hc₀id, hc₀mem⟩ := modal_filter_of_current hInv hold
      have hlt := hInv.1 c₀ hc₀mem
      have hcid' : (runModal ops initModal).nextId = old := hcid
      omega
  · have hInvC : modalInv (closeModalLifecycle (runModal ops initModal)) :=
      modalInv_close _ hInv
    rw [modalLiveCount_of_inv hInvC]
    rfl

/-- Witness for C7 at a concrete input: from the initial page state, after
one expand click, a second open leaves one live modal instance; a close
leaves zero; and the first open's instance (id 0) is the one a second open
destroys. -/
theorem modal_single_instance_witness :
    modalLiveCount (openModalLifecycle (openModalLifecycle
      (runModal [ModalOp.expandClick] initModal))) = 1 ∧
    modalLiveCount (closeModalLifecycle
      (runModal [ModalOp.expandClick] initModal)) = 0 ∧
    (ModalChartRec.mk 0 true).destroyed = true :=
  ⟨(modal_single_instance [ModalOp.expandClick]).2.1,
   (modal_single_instance [ModalOp.expandClick]).2.2.2.2,
   (modal_single_instance [ModalOp.expandClick]).2.2.1 0 rfl
     (ModalChartRec.mk 0 true) (by decide) rfl⟩

mutual

theorem jsonDeepCopy_id : ∀ j : Json, jsonDeepCopy j = j
  | .null => rfl
  | .bool _ => rfl
  | .num _ => rfl
  | .str _ => rfl
  | .arr xs => by rw [jsonDeepCopy, jsonDeepCopyList_id xs]
  | .obj fs => by rw [jsonDeepCopy, jsonDeepCopyFields_id fs]

theorem jsonDeepCopyList_id : ∀ xs : List Json, jsonDeepCopyList xs = xs
  | [] => rfl
  | x :: xs => by
      rw [jsonDeepCopyList, jsonDeepCopy_id x, jsonDeepCopyList_id xs]

theorem jsonDeepCopyFields_id : ∀ fs : List (String × Json),
    jsonDeepCopyFields fs = fs
  | [] => rfl
  | f :: fs => by
      rw [jsonDeepCopyFields, jsonDeepCopy_id f.2, jsonDeepCopyFields_id fs]

end

/-- C8: opening the modal for a source chart gives the modal chart freshly
allocated data and options objects — a structural deep copy whose data graph
equals the source's — sharing no address with the source chart, so that:
the source's cells are untouched by the open, any later write into the
modal chart's data or options cell leaves the source chart's cells exactly
as before the open, and destroying either chart writes no heap cell (hence
never affects the other chart's data, options or liveness). -/
theorem openModalClone_isolation (h : Heap) (src : ChartObj)
    (hd : src.dataAddr < h.cells.length)
    (ho : src.optsAddr < h.cells.length) :
    ((openModalClone h src).2.dataAddr ≠ src.dataAddr ∧
     (openModalClone h src).2.dataAddr ≠ src.optsAddr ∧
     (openModalClone h src).2.optsAddr ≠ src.dataAddr ∧
     (openModalClone h src).2.optsAddr ≠ src.optsAddr) ∧
    readCell (openModalClone h src).1 (openModalClone h src).2.dataAddr
      = readCell h src.dataAddr ∧
    (readCell (openModalClone h src).1 src.dataAddr = readCell h src.dataAddr ∧
     readCell (openModalClone h src).1 src.optsAddr = readCell h src.optsAddr) ∧
    (∀ v,
      readCell (writeCell (openModalClone h src).1
          (openModalClone h src).2.dataAddr v) src.dataAddr
        = readCell h src.dataAddr ∧
      readCell (writeCell (openModalClone h src).1
          (openModalClone h src).2.optsAddr v) src.optsAddr
        = readCell h src.optsAddr) ∧
    ((∀ a, readCell (destroyChartObj (openModalClone h src).1
        (openModalClone h src).2).1 a = readCell (openModalClone h src).1 a) ∧
     (∀ a, readCell (destroyChartObj (openModalClone h src).1 src).1 a
        = readCell (openModalClone h src).1 a) ∧
     (destroyChartObj (openModalClone h src).1
        (openModalClone h src).2).2.destroyed = true) := by
  have hm : openModalClone h src
      = (⟨(h.cells ++ [jsonDeepCopy (readCell h src.dataAddr)]) ++
            [mergeModalOptions (jsonDeepCopy
              (jsOrElse (.val (readCell h src.optsAddr)) (.obj [])))]⟩,
         ⟨h.cells.length, h.cells.length + 1, false⟩) := by
    simp [openModalClone, allocCell]
  rw [hm]
  have hread : ∀ a, a < h.cells.length →
      readCell ⟨(h.cells ++ [jsonDeepCopy (readCell h src.dataAddr)]) ++
        [mergeModalOptions (jsonDeepCopy
          (jsOrElse (.val (readCell h src.optsAddr)) (.obj [])))]⟩ a
      = readCell h a := by
    intro a ha
    simp only [readCell]
    rw [List.getD_eq_getElem?_getD, List.getD_eq_getElem?_getD,
      List.getElem?_append_left (by simp; omega),
      List.getElem?_append_left ha]
    rw [List.getD_eq_getElem?_getD]
  refine ⟨⟨?_, ?_, ?_, ?_⟩, ?_, ⟨hread _ hd, hread _ ho⟩, ?_,
    fun a => rfl, fun a => rfl, rfl⟩
  · show h.cells.length ≠ src.dataAddr
    omega
  · show h.cells.length ≠ src.optsAddr
    omega
  · show h.cells.length + 1 ≠ src.dataAddr
    omega
  · show h.cells.length + 1 ≠ src.optsAddr
    omega
  · show readCell _ h.cells.length = _
    simp only [readCell]
    rw [List.getD_eq_getElem?_getD,
      List.getElem?_append_left (by simp),
      List.getElem?_concat_length]
    simp [jsonDeepCopy_id, readCell]
  · intro v
    constructor
    · show readCell ⟨List.set _ h.cells.length v⟩ src.dataAddr = _
      simp only [readCell]
      rw [List.getD_eq_getElem?_getD, List.getElem?_set_ne (by omega),
        ← List.getD_eq_getElem?_getD]
      exact hread _ hd
    · show readCell ⟨List.set _ (h.cells.length + 1) v⟩ src.optsAddr = _
      simp only [readCell]
      rw [List.getD_eq_getElem?_getD, List.getElem?_set_ne (by omega),
        ← List.getD_eq_getElem?_getD]
      exact hread _ ho

/-- Witness for C8 at a concrete two-cell heap: the modal chart's data cell
is a fresh address distinct from the source's, its contents equal the
source chart's data, and a write into it leaves the source data cell
unchanged. -/
theorem openModalClone_isolation_witness :
    (openModalClone heapW srcW).2.dataAddr ≠ srcW.dataAddr ∧
    readCell (openModalClone heapW srcW).1 (openModalClone heapW srcW).2.dataAddr
      = readCell heapW srcW.dataAddr ∧
    readCell (writeCell (openModalClone heapW srcW).1
        (openModalClone heapW srcW).2.dataAddr (.num 9)) srcW.dataAddr
      = readCell heapW srcW.dataAddr :=
  ⟨(openModalClone_isolation heapW srcW (by decide) (by decide)).1.1,
   (openModalClone_isolation heapW srcW (by decide) (by decide)).2.1,
   ((openModalClone_isolation heapW srcW (by decide) (by decide)).2.2.2.1
      (.num 9)).1⟩

theorem loadDashboardStats_catch_dashes
    (net : Option HttpResponse) (c : Counters)
    (h : (loadDashboardStats net c).2 = true) :
    (loadDashboardStats net c).1 =
      { books := "-", users := "-", pending := "-", overdue := "-" } := by
  cases hf : fetchJSONNet net with
  | error e => simp [loadDashboardStats, hf, setAllDash_eq]
  | ok data =>
      cases hs : statsThen data c with
      | ok c' =>
          exfalso
          simp [loadDashboardStats, hf, hs] at h
      | error cp => simp [loadDashboardStats, hf, hs, setAllDash_eq]

/-- C9 (counterexample): the claim that every failed load is converted into
a user-visible degraded state with "an empty or absent chart for the
statistics charts" is false: after one successful chart-statistics load, a
second, failing load logs its error but leaves the previously rendered
chart in its slot — the slot is neither empty nor absent. -/
theorem chart_error_degraded_counterexample :
    (pageLoadBookStats (some rStatsBad)
        (pageLoadBookStats (some rStatsOk) pageStart)).console
      = ["Error loading book stats:"] ∧
    specEmptyOrAbsentChart
      (pageLoadBookStats (some rStatsBad)
        (pageLoadBookStats (some rStatsOk) pageStart)).slots.booksPerCategory
      = false ∧
    (pageLoadBookStats (some rStatsBad)
        (pageLoadBookStats (some rStatsOk) pageStart)).slots.booksPerCategory
      = (pageLoadBookStats (some rStatsOk) pageStart).slots.booksPerCategory :=
  ⟨rfl, rfl, rfl⟩


theorem jsProp_val_of_not_null (x : Json) (k : String)
    (h : jsonIsNull x = false) : jsProp (.val x) k = .ok (jsPropOf x k) := by
  cases x with
  | null => exact absurd h (by simp [jsonIsNull])
  | bool b => rfl
  | num n => rfl
  | str s => rfl
  | arr xs => rfl
  | obj fs => cases hf : findField k fs <;> simp [jsProp, jsPropOf, hf]

theorem mapPropE_map (k : String) :
    ∀ xs : List Json, (∀ x ∈ xs, jsonIsNull x = false) →
      mapPropE xs k = .ok (xs.map (fun x => jsPropOf x k)) := by
  intro xs
  induction xs with
  | nil => intro h; rfl
  | cons x rest ih =>
      intro h
      have h1 := jsProp_val_of_not_null x k (h x (List.mem_cons_self x rest))
      have h2 := ih (fun y hy => h y (List.mem_cons_of_mem x hy))
      show (match jsProp (.val x) k with
        | Except.error e => Except.error e
        | Except.ok v =>
            match mapPropE rest k with
            | Except.error e => Except.error e
            | Except.ok vs => Except.ok (v :: vs)) = _
      rw [h1, h2]
      rfl

theorem renderBooksPerCategoryE_agrees (data : Json) (cats : List Json)
    (hc : jsPropOf data "category_book_counts" = .val (.arr cats))
    (hnn : ∀ x ∈ cats.take 20, jsonIsNull x = false) :
    renderBooksPerCategoryE data = .ok (renderBooksPerCategorySpec data) := by
  obtain ⟨fs, rfl⟩ : ∃ gs, data = .obj gs := by
    cases data <;> first
      | exact ⟨_, rfl⟩
      | exact absurd hc (by simp [jsPropOf])
  have hj : jsProp (.val (.obj fs)) "category_book_counts"
      = .ok (.val (.arr cats)) := by
    rw [jsProp_val_of_not_null (.obj fs) "category_book_counts" rfl, hc]
  have ha : jsArrElems (jsPropOf (.obj fs) "category_book_counts") = cats := by
    rw [hc]
    rfl
  have ho : jsOrElse (.val (.arr cats)) (.arr []) = .arr cats := rfl
  simp only [renderBooksPerCategoryE, hj, ho]
  rw [mapPropE_map _ _ hnn, mapPropE_map _ _ hnn]
  simp only [renderBooksPerCategorySpec, ha]

theorem renderLanguageE_agrees (data : Json) (langs : List Json)
    (hl : jsPropOf data "language_distribution" = .val (.arr langs))
    (hnn : ∀ x ∈ langs.take 12, jsonIsNull x = false) :
    renderLanguageE data = .ok (renderLanguageSpec data) := by
  obtain ⟨fs, rfl⟩ : ∃ gs, data = .obj gs := by
    cases data <;> first
      | exact ⟨_, rfl⟩
      | exact absurd hl (by simp [jsPropOf])
  have hj : jsProp (.val (.obj fs)) "language_distribution"
      = .ok (.val (.arr langs)) := by
    rw [jsProp_val_of_not_null (.obj fs) "language_distribution" rfl, hl]
  have ha : jsArrElems (jsPropOf (.obj fs) "language_distribution") = langs := by
    rw [hl]
    rfl
  have ho : jsOrElse (.val (.arr langs)) (.arr []) = .arr langs := rfl
  simp only [renderLanguageE, hj, ho]
  rw [mapPropE_map _ _ hnn, mapPropE_map _ _ hnn]
  simp only [renderLanguageSpec, ha]

theorem renderLoanStatusE_agrees (data : Json) (sd : List Json)
    (hs : jsPropOf data "status_distribution" = .val (.arr sd))
    (hnn : ∀ x ∈ sd, jsonIsNull x = false) :
    renderLoanStatusE data = .ok (renderLoanStatusSpec data) := by
  obtain ⟨fs, rfl⟩ : ∃ gs, data = .obj gs := by
    cases data <;> first
      | exact ⟨_, rfl⟩
      | exact absurd hs (by simp [jsPropOf])
  have hj : jsProp (.val (.obj fs)) "status_distribution"
      = .ok (.val (.arr sd)) := by
    rw [jsProp_val_of_not_null (.obj fs) "status_distribution" rfl, hs]
  have ha : jsArrElems (jsPropOf (.obj fs) "status_distribution") = sd := by
    rw [hs]
    rfl
  have ho : jsOrElse (.val (.arr sd)) (.arr []) = .arr sd := rfl
  simp only [renderLoanStatusE, hj, ho]
  rw [mapPropE_map _ _ hnn, mapPropE_map _ _ hnn]
  simp only [renderLoanStatusSpec, ha]

theorem renderLoansOverTimeE_ok_of_cat_ok {data : Json} {sp : ChartSpec}
    (h : renderBooksPerCategoryE data = .ok sp) :
    renderLoansOverTimeE data = .ok (renderLoansOverTimeSpec data) := by
  cases data with
  | null =>
      exfalso
      simp [renderBooksPerCategoryE, jsProp] at h
  | bool b => rfl
  | num n => rfl
  | str s => rfl
  | arr xs => rfl
  | obj fs =>
      have hj := jsProp_val_of_not_null (.obj fs) "time_series" rfl
      simp only [renderLoansOverTimeE, hj]

/-- C9 (amended): every error arising from the three data loads is logged to
the console and is non-fatal; the summary failure handler resets all four
counters to the dash placeholder and the activity failure handler replaces
the activity list (when present) with the error placeholder text; a failed
chart-statistics load, however, is only logged — its catch performs no
conversion of the chart slots to a degraded state.  The slots hold exactly
what the load left behind: all four unchanged when the fetch rejects, the
body fails to parse, or the first render throws; or, when a later render
throws on a shape-mismatch payload, the slots already re-rendered (category
and loans, or category, loans and status) hold the new datasets while the
remaining slots keep their previous charts. -/
theorem loads_error_handling_amended
    (st : PageState) (net : Option HttpResponse) :
    ((loadDashboardStats net st.counters).2 = true →
      (pageLoadSummary net st).counters =
        { books := "-", users := "-", pending := "-", overdue := "-" } ∧
      (pageLoadSummary net st).console
        = st.console ++ ["Error loading stats:"]) ∧
    ((loadRecentActivity net st.activityHtml).2 = true →
      (pageLoadActivity net st).console
        = st.console ++ ["Error loading activity:"] ∧
      (st.activityHtml.isSome = true →
        (pageLoadActivity net st).activityHtml
          = some "<p>Error loading recent activity</p>")) ∧
    ((loadBookStatsApply net st.slots).2 = true →
      (pageLoadBookStats net st).console
        = st.console ++ ["Error loading book stats:"] ∧
      ((pageLoadBookStats net st).slots = st.slots ∨
       (∃ data sp1, parsedBody net = some data ∧
          renderBooksPerCategoryE data = .ok sp1 ∧
          ((pageLoadBookStats net st).slots =
            { booksPerCategory := some sp1,
              loansOverTime := some (renderLoansOverTimeSpec data),
              loanStatus := st.slots.loanStatus,
              language := st.slots.language } ∨
           (∃ sp3, renderLoanStatusE data = .ok sp3 ∧
             (pageLoadBookStats net st).slots =
               { booksPerCategory := some sp1,
                 loansOverTime := some (renderLoansOverTimeSpec data),
                 loanStatus := some sp3,
                 language := st.slots.language }))))) := by
  refine ⟨?_, ?_, ?_⟩
  · intro h2
    constructor
    · show (loadDashboardStats net st.counters).1 = _
      exact loadDashboardStats_catch_dashes net st.counters h2
    · show (if (loadDashboardStats net st.counters).2 then _ else st.console) = _
      rw [h2]
      simp
  · intro h2
    cases hf : fetchJSONNet net with
    | ok data =>
        exfalso
        simp [loadRecentActivity, hf] at h2
    | error e =>
        constructor
        · show (if (loadRecentActivity net st.activityHtml).2 then _
              else st.console) = _
          rw [h2]
          simp
        · intro hel
          show (loadRecentActivity net st.activityHtml).1 = _
          rcases hx : st.activityHtml with - | s0
          · rw [hx] at hel
            simp at hel
          · simp [loadRecentActivity, hf, hx]
  · intro h2
    constructor
    · show (if (loadBookStatsApply net st.slots).2 then _ else st.console) = _
      rw [h2]
      simp
    · rcases hp : parsedBody net with - | data
      · left
        show (loadBookStatsApply net st.slots).1 = st.slots
        simp [loadBookStatsApply, hp]
      · rcases hc : renderBooksPerCategoryE data with e | sp1
        · left
          show (loadBookStatsApply net st.slots).1 = st.slots
          simp [loadBookStatsApply, hp, renderChartsE, hc]
        · have hl := renderLoansOverTimeE_ok_of_cat_ok hc
          rcases hs : renderLoanStatusE data with e | sp3
          · right
            refine ⟨data, sp1, rfl, hc, Or.inl ?_⟩
            show (loadBookStatsApply net st.slots).1 = _
            simp [loadBookStatsApply, hp, renderChartsE, hc, hl, hs]
          · rcases hg : renderLanguageE data with e | sp4
            · right
              refine ⟨data, sp1, rfl, hc, Or.inr ⟨sp3, hs, ?_⟩⟩
              show (loadBookStatsApply net st.slots).1 = _
              simp [loadBookStatsApply, hp, renderChartsE, hc, hl, hs, hg]
            · exfalso
              simp [loadBookStatsApply, hp, renderChartsE, hc, hl, hs, hg] at h2

/-- Witness for the amended C9 theorem at two concrete failing loads: an
HTTP 500 HTML page (fetch-level failure) dashes the counters, shows the
activity error placeholder, logs the chart error and leaves the chart slots
untouched; a shape-mismatch payload whose `status_distribution` is an
object logs the chart error after the category slot was re-rendered, while
the loan-status slot keeps its previous (absent) chart. -/
theorem loads_error_handling_amended_witness :
    (pageLoadSummary (some rStatsBad) pageStart).counters =
      { books := "-", users := "-", pending := "-", overdue := "-" } ∧
    (pageLoadActivity (some rStatsBad) pageStart).activityHtml
      = some "<p>Error loading recent activity</p>" ∧
    ((pageLoadBookStats (some rStatsBad) pageStart).console
        = ["Error loading book stats:"] ∧
     (pageLoadBookStats (some rStatsBad) pageStart).slots = pageStart.slots) ∧
    ((pageLoadBookStats (some rStatsShape) pageStart).console
        = ["Error loading book stats:"] ∧
     (pageLoadBookStats (some rStatsShape) pageStart).slots.booksPerCategory.isSome
        = true ∧
     (pageLoadBookStats (some rStatsShape) pageStart).slots.loanStatus = none) :=
  ⟨((loads_error_handling_amended pageStart (some rStatsBad)).1 (by decide)).1,
   ((loads_error_handling_amended pageStart (some rStatsBad)).2.1
      (by decide)).2 (by decide),
   ⟨((loads_error_handling_amended pageStart (some rStatsBad)).2.2 (by rfl)).1,
    by rfl⟩,
   ⟨((loads_error_handling_amended pageStart (some rStatsShape)).2.2 (by rfl)).1,
    by rfl, by rfl⟩⟩
